import Mathlib

/-!
Verification development for the pme-poc repository (a Vue progressive web
app estimating reference evapotranspiration).  The definitions below are a
shallow embedding of the relevant TypeScript source:

* `PMView` embeds the script of src/views/PenmanMonteithView.vue
  (unit-conversion helpers, display/input conversion, unit toggles with
  their watchers, the placeholder et0 computed property, and
  fetchWeatherData).
* `WeatherService` embeds src/services/weatherService.ts (the current
  version: forecast-period temperature extraction, gridpoint
  humidity/wind extraction with JS truthiness defaults, and
  estimateSolarRadiation).
* `Geocoding` embeds the GeocodeServiceManager of
  src/services/geocodingService.ts together with the two provider
  adapters (GooglePlacesProvider, OpenStreetMapProvider).

JS numbers are modelled as exact rationals (the arithmetic involved is
multiplication, division and comparison by constants), except for the
solar-radiation formula whose trigonometry is modelled over the reals.
A JS expression that can evaluate to NaN (Math.acos outside [-1, 1]) is
modelled with Option, none standing for NaN.  JS null is likewise
modelled with Option in the weather-grid payloads.
-/

namespace PMView

/-- Unit preference for temperatures, 'C' or 'F'
(PenmanMonteithView.vue, temperatureUnit ref). -/
inductive TempUnit
  | C
  | F
deriving DecidableEq, Repr

/-- Unit preference for altitude, 'm' or 'ft'. -/
inductive AltUnit
  | m
  | ft
deriving DecidableEq, Repr

/-- Unit preference for wind speed, 'm/s' or 'mph'. -/
inductive WindUnit
  | ms
  | mph
deriving DecidableEq, Repr

/-- celsiusToFahrenheit from PenmanMonteithView.vue:
return (celsius * 9) / 5 + 32. -/
def celsiusToFahrenheit (celsius : ℚ) : ℚ :=
  celsius * 9 / 5 + 32

/-- fahrenheitToCelsius from PenmanMonteithView.vue:
return ((fahrenheit - 32) * 5) / 9. -/
def fahrenheitToCelsius (fahrenheit : ℚ) : ℚ :=
  (fahrenheit - 32) * 5 / 9

/-- metersToFeet from PenmanMonteithView.vue: return meters * 3.28084. -/
def metersToFeet (meters : ℚ) : ℚ :=
  meters * 3.28084

/-- feetToMeters from PenmanMonteithView.vue: return feet / 3.28084. -/
def feetToMeters (feet : ℚ) : ℚ :=
  feet / 3.28084

/-- msToMph from PenmanMonteithView.vue: return ms * 2.237. -/
def msToMph (ms : ℚ) : ℚ :=
  ms * 2.237

/-- mphToMs from PenmanMonteithView.vue: return mph / 2.237. -/
def mphToMs (mph : ℚ) : ℚ :=
  mph / 2.237

/-- displayTemperature: temperatureUnit === 'F' ?
celsiusToFahrenheit(tempC) : tempC.  The unit preference ref is passed
explicitly. -/
def displayTemperature (unit : TempUnit) (tempC : ℚ) : ℚ :=
  if unit = TempUnit.F then celsiusToFahrenheit tempC else tempC

/-- displayAltitude: altitudeUnit === 'ft' ? metersToFeet(meters) : meters. -/
def displayAltitude (unit : AltUnit) (meters : ℚ) : ℚ :=
  if unit = AltUnit.ft then metersToFeet meters else meters

/-- displayWindSpeed: windSpeedUnit === 'mph' ? msToMph(ms) : ms. -/
def displayWindSpeed (unit : WindUnit) (ms : ℚ) : ℚ :=
  if unit = WindUnit.mph then msToMph ms else ms

/-- convertInputTemperature: temperatureUnit === 'F' ?
fahrenheitToCelsius(inputValue) : inputValue. -/
def convertInputTemperature (unit : TempUnit) (inputValue : ℚ) : ℚ :=
  if unit = TempUnit.F then fahrenheitToCelsius inputValue else inputValue

/-- convertInputAltitude: altitudeUnit === 'ft' ?
feetToMeters(inputValue) : inputValue. -/
def convertInputAltitude (unit : AltUnit) (inputValue : ℚ) : ℚ :=
  if unit = AltUnit.ft then feetToMeters inputValue else inputValue

/-- convertInputWindSpeed: windSpeedUnit === 'mph' ?
mphToMs(inputValue) : inputValue. -/
def convertInputWindSpeed (unit : WindUnit) (inputValue : ℚ) : ℚ :=
  if unit = WindUnit.mph then mphToMs inputValue else inputValue

/-- The et0 computed property of PenmanMonteithView.vue (current
version), which reads the base (metric) refs:
avgTemp = (baseMaxTemp + baseMinTemp) / 2;
tempFactor = avgTemp * 0.1; radiationFactor = solarRadiation * 0.05;
windFactor = baseWindSpeed * 0.02; humidityFactor = relativeHumidity * 0.01;
Math.max(0, tempFactor + radiationFactor + windFactor - humidityFactor). -/
def et0 (baseMaxTemp baseMinTemp solarRadiation baseWindSpeed
    relativeHumidity : ℚ) : ℚ :=
  let avgTemp := (baseMaxTemp + baseMinTemp) / 2
  let tempFactor := avgTemp * 0.1
  let radiationFactor := solarRadiation * 0.05
  let windFactor := baseWindSpeed * 0.02
  let humidityFactor := relativeHumidity * 0.01
  max 0 (tempFactor + radiationFactor + windFactor - humidityFactor)

end PMView
namespace WeatherService

/-- The station descriptor embedded in ProcessedWeatherData
(src/types/weather.ts). -/
structure Station where
  id : String
  name : String
  latitude : ℚ
  longitude : ℚ
  elevation : ℚ
deriving DecidableEq, Repr

/-- ProcessedWeatherData from src/types/weather.ts.  Its field comments
document maxTemperature and minTemperature in degrees C, relativeHumidity
in percent and windSpeed in m/s. -/
structure ProcessedWeatherData where
  maxTemperature : ℚ
  minTemperature : ℚ
  relativeHumidity : ℚ
  windSpeed : ℚ
  solarRadiation : Option ℚ
  station : Station
  timestamp : String
deriving DecidableEq, Repr

/-- Location from src/types/weather.ts: a latitude/longitude pair. -/
structure Location where
  latitude : ℚ
  longitude : ℚ
deriving DecidableEq, Repr

/-- One forecast period of the weather.gov forecast response.  The code
reads only the temperature field; the accompanying temperatureUnit tag
is carried by the payload but never inspected by getProcessedWeatherData. -/
structure ForecastPeriod where
  temperature : ℚ
  temperatureUnit : String
deriving DecidableEq, Repr

/-- One gridpoint time series (e.g. gridData.relativeHumidity or
gridData.windSpeed): a list of entries whose value may be null
(modelled none), plus a unit-of-measure tag. -/
structure GridTimeSeries where
  values : List (Option ℚ)
  uom : String
deriving DecidableEq, Repr

/-- The gridpoint response properties used by getProcessedWeatherData;
either series may be absent from the payload (modelled none). -/
structure GridData where
  relativeHumidity : Option GridTimeSeries
  windSpeed : Option GridTimeSeries
deriving DecidableEq, Repr

/-- JS truthiness fallback x || d for a number-or-null x: null and 0 are
falsy and select the default. -/
def jsOr (x : Option ℚ) (d : ℚ) : ℚ :=
  match x with
  | none => d
  | some v => if v = 0 then d else v

/-- celsiusToFahrenheit from weatherService.ts: (celsius * 9/5) + 32. -/
def celsiusToFahrenheit (celsius : ℚ) : ℚ :=
  celsius * 9 / 5 + 32

/-- fahrenheitToCelsius from weatherService.ts: (fahrenheit - 32) * 5/9. -/
def fahrenheitToCelsius (fahrenheit : ℚ) : ℚ :=
  (fahrenheit - 32) * 5 / 9

/-- convertWindSpeedFromGrid from weatherService.ts, on a non-null value:
km_h-1 divides by 3.6, mi_h-1 multiplies by 0.44704, m_s-1 and any other
tag return the value unchanged. -/
def convertWindSpeedFromGridValue (value : ℚ) (uom : String) : ℚ :=
  if uom = "wmoUnit:km_h-1" then value / 3.6
  else if uom = "wmoUnit:mi_h-1" then value * 0.44704
  else if uom = "wmoUnit:m_s-1" then value
  else value

/-- convertWindSpeedFromGrid from weatherService.ts: null propagates,
otherwise the unit conversion above is applied. -/
def convertWindSpeedFromGrid (value : Option ℚ) (uom : String) : Option ℚ :=
  match value with
  | none => none
  | some v => some (convertWindSpeedFromGridValue v uom)

/-- The temperature extraction of getProcessedWeatherData (current
version): periods.slice(0, 2), map to the raw temperature field, then
Math.max / Math.min over the spread.  No unit conversion is applied.
On an empty period list Math.max yields -Infinity; that degenerate case
is modelled as none. -/
def extractTodayTemps (periods : List ForecastPeriod) :
    Option (ℚ × ℚ) :=
  match (periods.take 2).map (fun period => period.temperature) with
  | [] => none
  | t :: ts => some (ts.foldl max t, ts.foldl min t)

/-- The local relativeHumidity variable of getProcessedWeatherData:
humidityData && humidityData.values && humidityData.values.length > 0
? humidityData.values[0].value : 50.  The result may still be null
(none) when values[0].value is null. -/
def humidityVar (gridData : GridData) : Option ℚ :=
  match gridData.relativeHumidity with
  | none => some 50
  | some series =>
    match series.values with
    | [] => some 50
    | v0 :: _ => v0

/-- The local windSpeedValue variable of getProcessedWeatherData:
windData && windData.values && windData.values.length > 0
? convertWindSpeedFromGrid(windData.values[0].value, windData.uom) : 2. -/
def windSpeedValueVar (gridData : GridData) : Option ℚ :=
  match gridData.windSpeed with
  | none => some 2
  | some series =>
    match series.values with
    | [] => some 2
    | v0 :: _ => convertWindSpeedFromGrid v0 series.uom

/-- The relativeHumidity field finally stored in ProcessedWeatherData:
relativeHumidity || 50. -/
def extractRelativeHumidity (gridData : GridData) : ℚ :=
  jsOr (humidityVar gridData) 50

/-- The windSpeed field finally stored in ProcessedWeatherData:
windSpeed = windSpeedValue || 2. -/
def extractWindSpeed (gridData : GridData) : ℚ :=
  jsOr (windSpeedValueVar gridData) 2

/-- The response-processing core of getProcessedWeatherData (current
version), after the network fetches have produced the forecast periods,
the gridpoint data, the grid identifiers and the relative-location
elevation: builds the ProcessedWeatherData record.  none models the
degenerate empty-forecast case. -/
def getProcessedWeatherData (location : Location)
    (periods : List ForecastPeriod) (gridData : GridData)
    (gridId gridX gridY : String) (elevation : ℚ) (timestamp : String) :
    Option ProcessedWeatherData :=
  match extractTodayTemps periods with
  | none => none
  | some (maxTemp, minTemp) =>
    some
      { maxTemperature := maxTemp
        minTemperature := minTemp
        relativeHumidity := extractRelativeHumidity gridData
        windSpeed := extractWindSpeed gridData
        solarRadiation := none
        station :=
          { id := gridId
            name := "Weather Grid " ++ gridId ++ " (" ++ gridX ++ "," ++
              gridY ++ ")"
            latitude := location.latitude
            longitude := location.longitude
            elevation := elevation }
        timestamp := timestamp }

/-- The declination local of estimateSolarRadiation:
23.45 * Math.sin(2 * Math.PI * (284 + dayOfYear) / 365) * Math.PI / 180. -/
noncomputable def declination (dayOfYear : ℝ) : ℝ :=
  23.45 * Real.sin (2 * Real.pi * (284 + dayOfYear) / 365) * Real.pi / 180

/-- Math.acos: defined on [-1, 1], NaN (modelled none) outside. -/
noncomputable def jsAcos (x : ℝ) : Option ℝ :=
  if -1 ≤ x ∧ x ≤ 1 then some (Real.arccos x) else none

/-- estimateSolarRadiation from weatherService.ts.  The hour angle is
Math.acos(-Math.tan(latRad) * Math.tan(declination)); when its argument
leaves [-1, 1] the JS result is NaN, which propagates through the
remaining arithmetic and is modelled as none. -/
noncomputable def estimateSolarRadiation (latitude dayOfYear : ℝ) :
    Option ℝ :=
  let solarConstant : ℝ := 1367
  let latRad := latitude * Real.pi / 180
  let decl := declination dayOfYear
  match jsAcos (-Real.tan latRad * Real.tan decl) with
  | none => none
  | some hourAngle =>
    some ((24 * 60 / Real.pi) * solarConstant *
      (hourAngle * Real.sin latRad * Real.sin decl +
        Real.cos latRad * Real.cos decl * Real.sin hourAngle) / 1000000 *
      0.7)

end WeatherService
namespace Geocoding

/-- Parsed address components of a GeocodeResult
(src/types/geocoding.ts). -/
structure AddressComponents where
  street : Option String
  city : Option String
  state : Option String
  country : Option String
  postalCode : Option String
deriving DecidableEq, Repr

/-- GeocodeResult from src/types/geocoding.ts, with the optional opaque
place reference added by GooglePlacesProvider. -/
structure GeocodeResult where
  latitude : ℚ
  longitude : ℚ
  formattedAddress : String
  addressComponents : AddressComponents
  placeId : Option String
deriving DecidableEq, Repr

/-- The observable identity of a provider adapter: its name, priority
and the outcome of its isAvailable() check.  GooglePlacesProvider and
OpenStreetMapProvider are instances below; the behaviour of a call to
searchLocations is abstracted as a function parameter of the manager. -/
structure Provider where
  name : String
  priority : Int
  available : Bool
deriving DecidableEq, Repr

/-- GooglePlacesProvider (src/services/providers/GooglePlacesProvider.ts):
name "Google Places (Modern API)", priority 10, available iff the
VITE_GOOGLE_MAPS_API_KEY build variable is truthy (non-empty) and not
the literal "demo". -/
def googlePlacesProvider (apiKey : String) : Provider :=
  { name := "Google Places (Modern API)"
    priority := 10
    available := !(apiKey == "") && !(apiKey == "demo") }

/-- OpenStreetMapProvider (src/services/providers/OpenStreetMapProvider.ts):
name "OpenStreetMap (Nominatim)", priority 5, isAvailable() returns true
unconditionally. -/
def openStreetMapProvider : Provider :=
  { name := "OpenStreetMap (Nominatim)"
    priority := 5
    available := true }

/-- Stable insertion of a provider into a list sorted by descending
priority, modelling Array.prototype.sort with the comparator
(a, b) => b.priority - a.priority. -/
def insertByPriorityDesc (p : Provider) :
    List Provider → List Provider
  | [] => [p]
  | q :: qs =>
    if q.priority < p.priority then p :: q :: qs
    else q :: insertByPriorityDesc p qs

/-- The sort performed in the GeocodeServiceManager constructor:
this.providers.sort((a, b) => b.priority - a.priority). -/
def sortByPriorityDesc (providers : List Provider) : List Provider :=
  providers.foldr insertByPriorityDesc []

/-- The provider list of GeocodeServiceManager after construction:
[new GooglePlacesProvider(), new OpenStreetMapProvider()] sorted by
descending priority. -/
def managerProviders (apiKey : String) : List Provider :=
  sortByPriorityDesc [googlePlacesProvider apiKey, openStreetMapProvider]

/-- GeocodeServiceManager.getAvailableProvider: the first provider in
the priority-ordered list whose isAvailable() passes; the none case is
the thrown Error("No geocoding providers available"). -/
def getAvailableProvider (providers : List Provider) : Option Provider :=
  providers.find? (fun p => p.available)

/-- GeocodeServiceManager.searchLocations.  call abstracts
provider.searchLocations(query, limit): an Except-valued outcome per
provider.  The manager selects the first available provider; on success
its results are returned; on failure the remaining available providers
(object inequality p !== provider) are tried — the first of them, if
any, is called and its outcome returned, otherwise the original error is
rethrown; with no available provider at all, getAvailableProvider
throws before any call is attempted. -/
def managerSearchLocations (providers : List Provider)
    (call : Provider → Except String (List GeocodeResult)) :
    Except String (List GeocodeResult) :=
  match getAvailableProvider providers with
  | none => Except.error "No geocoding providers available"
  | some provider =>
    match call provider with
    | Except.ok results => Except.ok results
    | Except.error e =>
      match providers.filter
          (fun p => decide (p ≠ provider) && p.available) with
      | [] => Except.error e
      | fallbackProvider :: _ => call fallbackProvider

end Geocoding
namespace PMView

/-- The reactive state of PenmanMonteithView.vue that the unit toggles
and fetchWeatherData touch: the three unit preferences, the location
coordinates, the weather-request status fields, the base (always metric)
values, and the displayed form fields. -/
structure ViewState where
  temperatureUnit : TempUnit
  altitudeUnit : AltUnit
  windSpeedUnit : WindUnit
  locationLat : ℚ
  locationLon : ℚ
  loadingWeather : Bool
  weatherError : String
  weatherData : Option WeatherService.ProcessedWeatherData
  lastWeatherFetch : Option ℚ
  baseMaxTemp : ℚ
  baseMinTemp : ℚ
  baseWindSpeed : ℚ
  baseAltitude : ℚ
  maxTemp : ℚ
  minTemp : ℚ
  relativeHumidity : ℚ
  windSpeed : ℚ
  altitude : ℚ
  latitude : ℚ
  solarRadiation : ℚ
deriving DecidableEq, Repr

/-- toggleTemperatureUnit together with the reactive watchers it fires:
the unit ref is flipped; watch(temperatureUnit) rewrites maxTemp and
minTemp from the base values via displayTemperature; the display-field
watchers watch(maxTemp) and watch(minTemp) then recompute the base
values via convertInputTemperature under the new unit. -/
def toggleTemperatureUnit (s : ViewState) : ViewState :=
  let newUnit :=
    if s.temperatureUnit = TempUnit.C then TempUnit.F else TempUnit.C
  let newMaxTemp := displayTemperature newUnit s.baseMaxTemp
  let newMinTemp := displayTemperature newUnit s.baseMinTemp
  { s with
    temperatureUnit := newUnit
    maxTemp := newMaxTemp
    minTemp := newMinTemp
    baseMaxTemp := convertInputTemperature newUnit newMaxTemp
    baseMinTemp := convertInputTemperature newUnit newMinTemp }

/-- toggleAltitudeUnit with its watchers: watch(altitudeUnit) rewrites
altitude from baseAltitude, then watch(altitude) recomputes
baseAltitude via convertInputAltitude. -/
def toggleAltitudeUnit (s : ViewState) : ViewState :=
  let newUnit :=
    if s.altitudeUnit = AltUnit.m then AltUnit.ft else AltUnit.m
  let newAltitude := displayAltitude newUnit s.baseAltitude
  { s with
    altitudeUnit := newUnit
    altitude := newAltitude
    baseAltitude := convertInputAltitude newUnit newAltitude }

/-- toggleWindSpeedUnit with its watchers: watch(windSpeedUnit) rewrites
windSpeed from baseWindSpeed, then watch(windSpeed) recomputes
baseWindSpeed via convertInputWindSpeed. -/
def toggleWindSpeedUnit (s : ViewState) : ViewState :=
  let newUnit :=
    if s.windSpeedUnit = WindUnit.ms then WindUnit.mph else WindUnit.ms
  let newWindSpeed := displayWindSpeed newUnit s.baseWindSpeed
  { s with
    windSpeedUnit := newUnit
    windSpeed := newWindSpeed
    baseWindSpeed := convertInputWindSpeed newUnit newWindSpeed }

/-- fetchWeatherData from PenmanMonteithView.vue.  fetch abstracts
weatherService.getProcessedWeatherData (ok = resolved data, error = the
surfaced message), estimate abstracts
weatherService.estimateSolarRadiation, dayOfYear abstracts
new Date().getDayOfYear() and now the fetch timestamp.  The guard
(targetLat === 0 || targetLon === 0) sets the weather error and returns
before any service call; otherwise the fields are assigned as in the
try/catch body, with loadingWeather finally reset to false. -/
def fetchWeatherData (s : ViewState)
    (fetch : WeatherService.Location →
      Except String WeatherService.ProcessedWeatherData)
    (estimate : ℚ → ℚ → ℚ) (dayOfYear : ℚ) (now : ℚ) : ViewState :=
  let targetLat := s.locationLat
  let targetLon := s.locationLon
  if targetLat = 0 ∨ targetLon = 0 then
    { s with
      weatherError := "Please set a location using the search field above" }
  else
    match fetch { latitude := targetLat, longitude := targetLon } with
    | Except.ok data =>
      { s with
        loadingWeather := false
        weatherError := ""
        weatherData := some data
        lastWeatherFetch := some now
        baseMaxTemp := data.maxTemperature
        baseMinTemp := data.minTemperature
        baseWindSpeed := data.windSpeed
        baseAltitude := data.station.elevation
        maxTemp := displayTemperature s.temperatureUnit data.maxTemperature
        minTemp := displayTemperature s.temperatureUnit data.minTemperature
        relativeHumidity := data.relativeHumidity
        windSpeed := displayWindSpeed s.windSpeedUnit data.windSpeed
        altitude := displayAltitude s.altitudeUnit data.station.elevation
        latitude := data.station.latitude
        solarRadiation := estimate targetLat dayOfYear }
    | Except.error msg =>
      { s with
        loadingWeather := false
        weatherError := msg
        weatherData := none }

end PMView
namespace WeatherService

/-- A concrete forecast response for the spec example: two periods
carrying temperatures 72 and 54, tagged by the upstream API as degrees
Fahrenheit. -/
def sampleForecastPeriods : List ForecastPeriod :=
  [{ temperature := 72, temperatureUnit := "F" },
   { temperature := 54, temperatureUnit := "F" }]

/-- A concrete gridpoint payload with ordinary non-null, non-zero most
recent values: 65 percent humidity and 10 km/h wind. -/
def sampleGridData : GridData :=
  { relativeHumidity := some { values := [some 65], uom := "wmoUnit:percent" }
    windSpeed := some { values := [some 10], uom := "wmoUnit:km_h-1" } }

/-- A concrete gridpoint payload whose most recent humidity and wind
values are present and equal to 0 (not null, not missing): the JS
truthiness fallback coerces both to the hardcoded defaults. -/
def zeroValueGridData : GridData :=
  { relativeHumidity := some { values := [some 0], uom := "wmoUnit:percent" }
    windSpeed := some { values := [some 0], uom := "wmoUnit:km_h-1" } }

/-- A concrete gridpoint payload with both series missing entirely. -/
def missingGridData : GridData :=
  { relativeHumidity := none, windSpeed := none }

end WeatherService

namespace Geocoding

/-- A concrete geocoding result used to exercise the manager. -/
def sampleResult : GeocodeResult :=
  { latitude := 38.8977
    longitude := -77.0365
    formattedAddress := "1600 Pennsylvania Avenue NW, Washington, DC"
    addressComponents :=
      { street := some "1600 Pennsylvania Avenue NW"
        city := some "Washington"
        state := some "DC"
        country := some "United States"
        postalCode := some "20500" }
    placeId := none }

/-- A concrete primary provider that is available. -/
def sampleProviderA : Provider :=
  { name := "A", priority := 10, available := true }

/-- A concrete secondary provider that is available. -/
def sampleProviderB : Provider :=
  { name := "B", priority := 5, available := true }

/-- A concrete call behaviour: the primary throws, the secondary
returns a result. -/
def sampleCall (p : Provider) : Except String (List GeocodeResult) :=
  if p.name == "A" then Except.error "quota exceeded"
  else Except.ok [sampleResult]

end Geocoding

namespace PMView

/-- A concrete view state: metric units everywhere, displayed values in
sync with the base values, and locationLat = 0 (a point on the equator). -/
def sampleViewState : ViewState :=
  { temperatureUnit := TempUnit.C
    altitudeUnit := AltUnit.m
    windSpeedUnit := WindUnit.ms
    locationLat := 0
    locationLon := -77
    loadingWeather := false
    weatherError := ""
    weatherData := none
    lastWeatherFetch := none
    baseMaxTemp := 25
    baseMinTemp := 12
    baseWindSpeed := 3
    baseAltitude := 150
    maxTemp := 25
    minTemp := 12
    relativeHumidity := 40
    windSpeed := 3
    altitude := 150
    latitude := 39
    solarRadiation := 20 }

/-- A concrete fetch behaviour standing in for the weather service call
in witnesses: always fails with a network message. -/
def sampleFetch (_loc : WeatherService.Location) :
    Except String WeatherService.ProcessedWeatherData :=
  Except.error "Failed to get weather data: Network Error"

end PMView

/-- Claim C5: the unit conversion pairs of PenmanMonteithView.vue are
mutual inverses over exact (rational) arithmetic: converting Fahrenheit
to Celsius and back, feet to meters and back, and mph to m/s and back
is the identity. -/
theorem claim_C5_conversion_roundtrips (x : ℚ) :
    PMView.celsiusToFahrenheit (PMView.fahrenheitToCelsius x) = x ∧
    PMView.metersToFeet (PMView.feetToMeters x) = x ∧
    PMView.msToMph (PMView.mphToMs x) = x := by
  refine ⟨?_, ?_, ?_⟩
  · unfold PMView.celsiusToFahrenheit PMView.fahrenheitToCelsius
    ring
  · unfold PMView.metersToFeet PMView.feetToMeters
    exact div_mul_cancel₀ x (by norm_num)
  · unfold PMView.msToMph PMView.mphToMs
    exact div_mul_cancel₀ x (by norm_num)

/-- Claim C6: with the temperature unit preference held fixed between
the two calls, convertInputTemperature after displayTemperature is the
identity on the stored Celsius value. -/
theorem claim_C6_display_then_input_identity (unit : PMView.TempUnit)
    (x : ℚ) :
    PMView.convertInputTemperature unit (PMView.displayTemperature unit x) =
      x := by
  cases unit
  · simp [PMView.convertInputTemperature, PMView.displayTemperature]
  · simp [PMView.convertInputTemperature, PMView.displayTemperature,
      PMView.celsiusToFahrenheit, PMView.fahrenheitToCelsius]

/-- Claim C9: the et0 computed property equals
max(0, 0.1 * avgTemp + 0.05 * solarRadiation + 0.02 * windSpeed
- 0.01 * relativeHumidity) with avgTemp the mean of the base
temperatures, and is therefore never negative, for every combination of
form-field values. -/
theorem claim_C9_et0_clamped_nonneg (a b s w h : ℚ) :
    PMView.et0 a b s w h =
      max 0 (0.1 * ((a + b) / 2) + 0.05 * s + 0.02 * w - 0.01 * h) ∧
    0 ≤ PMView.et0 a b s w h := by
  constructor
  · unfold PMView.et0
    ring
  · unfold PMView.et0
    exact le_max_left 0 _
/-- Helper: the input conversion is a left inverse of the display
conversion for temperatures, for either unit preference. -/
theorem convertInput_display_temperature (unit : PMView.TempUnit) (x : ℚ) :
    PMView.convertInputTemperature unit (PMView.displayTemperature unit x) =
      x := by
  cases unit
  · simp [PMView.convertInputTemperature, PMView.displayTemperature]
  · simp [PMView.convertInputTemperature, PMView.displayTemperature,
      PMView.celsiusToFahrenheit, PMView.fahrenheitToCelsius]

/-- Helper: the input conversion is a left inverse of the display
conversion for altitudes. -/
theorem convertInput_display_altitude (unit : PMView.AltUnit) (x : ℚ) :
    PMView.convertInputAltitude unit (PMView.displayAltitude unit x) = x := by
  cases unit
  · simp [PMView.convertInputAltitude, PMView.displayAltitude]
  · simp [PMView.convertInputAltitude, PMView.displayAltitude,
      PMView.metersToFeet, PMView.feetToMeters]
    exact mul_div_cancel_right₀ x (by norm_num)

/-- Helper: the input conversion is a left inverse of the display
conversion for wind speeds. -/
theorem convertInput_display_windspeed (unit : PMView.WindUnit) (x : ℚ) :
    PMView.convertInputWindSpeed unit (PMView.displayWindSpeed unit x) =
      x := by
  cases unit
  · simp [PMView.convertInputWindSpeed, PMView.displayWindSpeed]
  · simp [PMView.convertInputWindSpeed, PMView.displayWindSpeed,
      PMView.msToMph, PMView.mphToMs]
    exact mul_div_cancel_right₀ x (by norm_num)

/-- Claim C8: toggling any unit preference leaves the stored base metric
values unchanged (the unit watcher rewrites the display field from the
base value and the display-field watcher recomputes the base via the
inverse conversion, an identity composition), and a toggle followed by
a toggle back restores the original display values whenever the display
field was in sync with its base value. -/
theorem claim_C8_toggles_preserve_base (s : PMView.ViewState) :
    (PMView.toggleTemperatureUnit s).baseMaxTemp = s.baseMaxTemp ∧
    (PMView.toggleTemperatureUnit s).baseMinTemp = s.baseMinTemp ∧
    (PMView.toggleAltitudeUnit s).baseAltitude = s.baseAltitude ∧
    (PMView.toggleWindSpeedUnit s).baseWindSpeed = s.baseWindSpeed ∧
    (s.maxTemp = PMView.displayTemperature s.temperatureUnit s.baseMaxTemp →
      (PMView.toggleTemperatureUnit (PMView.toggleTemperatureUnit s)).maxTemp
        = s.maxTemp) ∧
    (s.minTemp = PMView.displayTemperature s.temperatureUnit s.baseMinTemp →
      (PMView.toggleTemperatureUnit (PMView.toggleTemperatureUnit s)).minTemp
        = s.minTemp) ∧
    (s.altitude = PMView.displayAltitude s.altitudeUnit s.baseAltitude →
      (PMView.toggleAltitudeUnit (PMView.toggleAltitudeUnit s)).altitude
        = s.altitude) ∧
    (s.windSpeed = PMView.displayWindSpeed s.windSpeedUnit s.baseWindSpeed →
      (PMView.toggleWindSpeedUnit (PMView.toggleWindSpeedUnit s)).windSpeed
        = s.windSpeed) := by
  have hbMax : ∀ t : PMView.ViewState,
      (PMView.toggleTemperatureUnit t).baseMaxTemp = t.baseMaxTemp :=
    fun t => convertInput_display_temperature _ _
  have hbMin : ∀ t : PMView.ViewState,
      (PMView.toggleTemperatureUnit t).baseMinTemp = t.baseMinTemp :=
    fun t => convertInput_display_temperature _ _
  have hbAlt : ∀ t : PMView.ViewState,
      (PMView.toggleAltitudeUnit t).baseAltitude = t.baseAltitude :=
    fun t => convertInput_display_altitude _ _
  have hbWind : ∀ t : PMView.ViewState,
      (PMView.toggleWindSpeedUnit t).baseWindSpeed = t.baseWindSpeed :=
    fun t => convertInput_display_windspeed _ _
  have huT : (PMView.toggleTemperatureUnit
      (PMView.toggleTemperatureUnit s)).temperatureUnit =
      s.temperatureUnit := by
    cases hu : s.temperatureUnit <;>
      simp [PMView.toggleTemperatureUnit, hu]
  have huA : (PMView.toggleAltitudeUnit
      (PMView.toggleAltitudeUnit s)).altitudeUnit = s.altitudeUnit := by
    cases hu : s.altitudeUnit <;> simp [PMView.toggleAltitudeUnit, hu]
  have huW : (PMView.toggleWindSpeedUnit
      (PMView.toggleWindSpeedUnit s)).windSpeedUnit = s.windSpeedUnit := by
    cases hu : s.windSpeedUnit <;> simp [PMView.toggleWindSpeedUnit, hu]
  refine ⟨hbMax s, hbMin s, hbAlt s, hbWind s, ?_, ?_, ?_, ?_⟩
  · intro h
    have h1 : (PMView.toggleTemperatureUnit
        (PMView.toggleTemperatureUnit s)).maxTemp =
        PMView.displayTemperature
          (PMView.toggleTemperatureUnit
            (PMView.toggleTemperatureUnit s)).temperatureUnit
          (PMView.toggleTemperatureUnit s).baseMaxTemp := rfl
    rw [h1, huT, hbMax s, ← h]
  · intro h
    have h1 : (PMView.toggleTemperatureUnit
        (PMView.toggleTemperatureUnit s)).minTemp =
        PMView.displayTemperature
          (PMView.toggleTemperatureUnit
            (PMView.toggleTemperatureUnit s)).temperatureUnit
          (PMView.toggleTemperatureUnit s).baseMinTemp := rfl
    rw [h1, huT, hbMin s, ← h]
  · intro h
    have h1 : (PMView.toggleAltitudeUnit
        (PMView.toggleAltitudeUnit s)).altitude =
        PMView.displayAltitude
          (PMView.toggleAltitudeUnit
            (PMView.toggleAltitudeUnit s)).altitudeUnit
          (PMView.toggleAltitudeUnit s).baseAltitude := rfl
    rw [h1, huA, hbAlt s, ← h]
  · intro h
    have h1 : (PMView.toggleWindSpeedUnit
        (PMView.toggleWindSpeedUnit s)).windSpeed =
        PMView.displayWindSpeed
          (PMView.toggleWindSpeedUnit
            (PMView.toggleWindSpeedUnit s)).windSpeedUnit
          (PMView.toggleWindSpeedUnit s).baseWindSpeed := rfl
    rw [h1, huW, hbWind s, ← h]

/-- Witness for claim C8 at a concrete in-sync state. -/
theorem claim_C8_toggles_preserve_base_witness :
    PMView.sampleViewState.maxTemp =
      PMView.displayTemperature PMView.sampleViewState.temperatureUnit
        PMView.sampleViewState.baseMaxTemp ∧
    (PMView.toggleTemperatureUnit PMView.sampleViewState).baseMaxTemp =
      PMView.sampleViewState.baseMaxTemp ∧
    (PMView.toggleTemperatureUnit
      (PMView.toggleTemperatureUnit PMView.sampleViewState)).maxTemp =
      PMView.sampleViewState.maxTemp :=
  ⟨rfl, (claim_C8_toggles_preserve_base PMView.sampleViewState).1,
    (claim_C8_toggles_preserve_base
      PMView.sampleViewState).2.2.2.2.1 rfl⟩
/-- Claim C10: whenever locationLat = 0 or locationLon = 0 (either one
individually), fetchWeatherData sets the weather error message and
returns without calling the weather service, leaving weatherData and
every form field unchanged: the result is independent of the fetch
behaviour and differs from the input state only in weatherError. -/
theorem claim_C10_zero_coordinate_rejected (s : PMView.ViewState)
    (fetch : WeatherService.Location →
      Except String WeatherService.ProcessedWeatherData)
    (estimate : ℚ → ℚ → ℚ) (dayOfYear now : ℚ)
    (h : s.locationLat = 0 ∨ s.locationLon = 0) :
    PMView.fetchWeatherData s fetch estimate dayOfYear now =
      { s with weatherError :=
          "Please set a location using the search field above" } := by
  simp only [PMView.fetchWeatherData]
  rw [if_pos h]

/-- Witness for claim C10 at a concrete state on the equator. -/
theorem claim_C10_zero_coordinate_rejected_witness :
    (PMView.sampleViewState.locationLat = 0 ∨
      PMView.sampleViewState.locationLon = 0) ∧
    PMView.fetchWeatherData PMView.sampleViewState PMView.sampleFetch
      (fun _ _ => 0) 80 5 =
      { PMView.sampleViewState with weatherError :=
          "Please set a location using the search field above" } :=
  ⟨Or.inl rfl,
    claim_C10_zero_coordinate_rejected PMView.sampleViewState
      PMView.sampleFetch (fun _ _ => 0) 80 5 (Or.inl rfl)⟩

/-- Claim C2: in GeocodeServiceManager.searchLocations, if the first
selected available provider throws and a further available provider
exists, the facade returns that fallback outcome — in particular the
second available result rather than the primary error; if no further
available provider exists, the primary error is surfaced to the
caller. -/
theorem claim_C2_provider_fallback (providers : List Geocoding.Provider)
    (call : Geocoding.Provider → Except String (List Geocoding.GeocodeResult))
    (primary : Geocoding.Provider) (e : String)
    (hfind : Geocoding.getAvailableProvider providers = some primary)
    (herr : call primary = Except.error e) :
    (∀ fallback rest results,
      providers.filter
        (fun p => decide (p ≠ primary) && p.available) = fallback :: rest →
      call fallback = Except.ok results →
      Geocoding.managerSearchLocations providers call =
        Except.ok results) ∧
    (providers.filter (fun p => decide (p ≠ primary) && p.available) = [] →
      Geocoding.managerSearchLocations providers call = Except.error e) := by
  constructor
  · intro fallback rest results hfilter hok
    simp only [Geocoding.managerSearchLocations, hfind, herr, hfilter, hok]
  · intro hfilter
    simp only [Geocoding.managerSearchLocations, hfind, herr, hfilter]

/-- Witness for claim C2: an available primary that throws and an
available secondary that answers. -/
theorem claim_C2_provider_fallback_witness :
    Geocoding.getAvailableProvider
      [Geocoding.sampleProviderA, Geocoding.sampleProviderB] =
      some Geocoding.sampleProviderA ∧
    Geocoding.sampleCall Geocoding.sampleProviderA =
      Except.error "quota exceeded" ∧
    Geocoding.managerSearchLocations
      [Geocoding.sampleProviderA, Geocoding.sampleProviderB]
      Geocoding.sampleCall = Except.ok [Geocoding.sampleResult] :=
  ⟨rfl, rfl,
    (claim_C2_provider_fallback
        [Geocoding.sampleProviderA, Geocoding.sampleProviderB]
        Geocoding.sampleCall Geocoding.sampleProviderA "quota exceeded"
        rfl rfl).1
      Geocoding.sampleProviderB [] [Geocoding.sampleResult] rfl rfl⟩

/-- Claim C7: the geocoding facade dispatches to the highest-priority
available provider: with a Google Maps API key configured (non-empty
and not "demo") the Google Places provider (priority 10) is selected
ahead of the OpenStreetMap provider (priority 5); with no key (or the
demo key) OpenStreetMap is selected; and when no provider at all is
available, searchLocations surfaces the
"No geocoding providers available" error without attempting any
provider call. -/
theorem claim_C7_provider_selection (apiKey : String) :
    (apiKey ≠ "" → apiKey ≠ "demo" →
      Geocoding.getAvailableProvider (Geocoding.managerProviders apiKey) =
        some (Geocoding.googlePlacesProvider apiKey)) ∧
    Geocoding.getAvailableProvider (Geocoding.managerProviders "") =
      some Geocoding.openStreetMapProvider ∧
    Geocoding.getAvailableProvider (Geocoding.managerProviders "demo") =
      some Geocoding.openStreetMapProvider ∧
    (∀ (providers : List Geocoding.Provider)
        (call : Geocoding.Provider →
          Except String (List Geocoding.GeocodeResult)),
      Geocoding.getAvailableProvider providers = none →
      Geocoding.managerSearchLocations providers call =
        Except.error "No geocoding providers available") := by
  refine ⟨?_, by decide, by decide, ?_⟩
  · intro h1 h2
    have hb1 : (apiKey == "") = false := beq_eq_false_iff_ne.mpr h1
    have hb2 : (apiKey == "demo") = false := beq_eq_false_iff_ne.mpr h2
    have hsorted : Geocoding.managerProviders apiKey =
        [Geocoding.googlePlacesProvider apiKey,
         Geocoding.openStreetMapProvider] := rfl
    rw [hsorted]
    simp [Geocoding.getAvailableProvider, List.find?,
      Geocoding.googlePlacesProvider, hb1, hb2]
  · intro providers call h
    simp only [Geocoding.managerSearchLocations, h]

/-- Witness for claim C7 at a concrete non-demo key. -/
theorem claim_C7_provider_selection_witness :
    ("AIzaSampleKey" ≠ "" ∧ "AIzaSampleKey" ≠ "demo") ∧
    Geocoding.getAvailableProvider
      (Geocoding.managerProviders "AIzaSampleKey") =
      some (Geocoding.googlePlacesProvider "AIzaSampleKey") :=
  ⟨⟨by decide, by decide⟩,
    (claim_C7_provider_selection "AIzaSampleKey").1 (by decide) (by decide)⟩
/-- Helper: the grid wind-speed unit conversion never turns a non-zero
value into zero (it multiplies or divides by non-zero constants). -/
theorem convertWindSpeedFromGridValue_ne_zero (v : ℚ) (uom : String)
    (hv : v ≠ 0) : WeatherService.convertWindSpeedFromGridValue v uom ≠ 0 := by
  unfold WeatherService.convertWindSpeedFromGridValue
  split_ifs
  · exact div_ne_zero hv (by norm_num)
  · exact mul_ne_zero hv (by norm_num)
  · exact hv
  · exact hv

/-- Counterexample to claim C4 as stated: a gridpoint payload whose most
recent humidity and wind values are available and equal to 0 (present,
non-null, non-empty), where the claim predicts the facade uses
values[0] (i.e. 0), but the code coerces the falsy 0 to the hardcoded
defaults 50 and 2. -/
theorem claim_C4_counterexample :
    WeatherService.humidityVar WeatherService.zeroValueGridData = some 0 ∧
    WeatherService.extractRelativeHumidity
      WeatherService.zeroValueGridData = 50 ∧
    (50 : ℚ) ≠ 0 ∧
    WeatherService.windSpeedValueVar WeatherService.zeroValueGridData =
      some 0 ∧
    WeatherService.extractWindSpeed WeatherService.zeroValueGridData = 2 ∧
    (2 : ℚ) ≠ 0 := by
  have hdiv : (0 : ℚ) / 3.6 = 0 := by norm_num
  refine ⟨rfl, ?_, by norm_num, ?_, ?_, by norm_num⟩
  · simp [WeatherService.extractRelativeHumidity,
      WeatherService.humidityVar, WeatherService.zeroValueGridData,
      WeatherService.jsOr]
  · simp [WeatherService.windSpeedValueVar,
      WeatherService.zeroValueGridData,
      WeatherService.convertWindSpeedFromGrid,
      WeatherService.convertWindSpeedFromGridValue, hdiv]
  · simp [WeatherService.extractWindSpeed,
      WeatherService.windSpeedValueVar, WeatherService.zeroValueGridData,
      WeatherService.convertWindSpeedFromGrid,
      WeatherService.convertWindSpeedFromGridValue, WeatherService.jsOr,
      hdiv]

/-- Claim C4 (amended): in getProcessedWeatherData, humidity and wind
come from the gridpoint timeseries most recent entry values[0]; when
that is unavailable (missing field, empty values array, or null value)
or when the extracted value is 0 (which JS truthiness treats as
unavailable), the hardcoded defaults relativeHumidity = 50 and
windSpeed = 2 are used; a non-null non-zero values[0] is used as is for
humidity and unit-converted for wind. -/
theorem claim_C4_gridpoint_fallback_amended (g : WeatherService.GridData) :
    (g.relativeHumidity = none →
      WeatherService.extractRelativeHumidity g = 50) ∧
    (∀ ts, g.relativeHumidity = some ts → ts.values = [] →
      WeatherService.extractRelativeHumidity g = 50) ∧
    (∀ ts rest, g.relativeHumidity = some ts → ts.values = none :: rest →
      WeatherService.extractRelativeHumidity g = 50) ∧
    (∀ ts rest, g.relativeHumidity = some ts →
      ts.values = some 0 :: rest →
      WeatherService.extractRelativeHumidity g = 50) ∧
    (∀ ts v rest, g.relativeHumidity = some ts →
      ts.values = some v :: rest → v ≠ 0 →
      WeatherService.extractRelativeHumidity g = v) ∧
    (g.windSpeed = none → WeatherService.extractWindSpeed g = 2) ∧
    (∀ ts, g.windSpeed = some ts → ts.values = [] →
      WeatherService.extractWindSpeed g = 2) ∧
    (∀ ts rest, g.windSpeed = some ts → ts.values = none :: rest →
      WeatherService.extractWindSpeed g = 2) ∧
    (∀ ts rest, g.windSpeed = some ts → ts.values = some 0 :: rest →
      WeatherService.extractWindSpeed g = 2) ∧
    (∀ ts v rest, g.windSpeed = some ts → ts.values = some v :: rest →
      v ≠ 0 →
      WeatherService.extractWindSpeed g =
        WeatherService.convertWindSpeedFromGridValue v ts.uom) := by
  refine ⟨?_, ?_, ?_, ?_, ?_, ?_, ?_, ?_, ?_, ?_⟩
  · intro h
    simp [WeatherService.extractRelativeHumidity,
      WeatherService.humidityVar, WeatherService.jsOr, h]
  · intro ts h hv
    simp [WeatherService.extractRelativeHumidity,
      WeatherService.humidityVar, WeatherService.jsOr, h, hv]
  · intro ts rest h hv
    simp [WeatherService.extractRelativeHumidity,
      WeatherService.humidityVar, WeatherService.jsOr, h, hv]
  · intro ts rest h hv
    simp [WeatherService.extractRelativeHumidity,
      WeatherService.humidityVar, WeatherService.jsOr, h, hv]
  · intro ts v rest h hv hnz
    simp [WeatherService.extractRelativeHumidity,
      WeatherService.humidityVar, WeatherService.jsOr, h, hv, hnz]
  · intro h
    simp [WeatherService.extractWindSpeed,
      WeatherService.windSpeedValueVar, WeatherService.jsOr, h]
  · intro ts h hv
    simp [WeatherService.extractWindSpeed,
      WeatherService.windSpeedValueVar, WeatherService.jsOr, h, hv]
  · intro ts rest h hv
    simp [WeatherService.extractWindSpeed,
      WeatherService.windSpeedValueVar, WeatherService.jsOr,
      WeatherService.convertWindSpeedFromGrid, h, hv]
  · intro ts rest h hv
    simp [WeatherService.extractWindSpeed,
      WeatherService.windSpeedValueVar, WeatherService.jsOr,
      WeatherService.convertWindSpeedFromGrid,
      WeatherService.convertWindSpeedFromGridValue, h, hv]
  · intro ts v rest h hv hnz
    simp only [WeatherService.extractWindSpeed,
      WeatherService.windSpeedValueVar, h, hv,
      WeatherService.convertWindSpeedFromGrid, WeatherService.jsOr]
    rw [if_neg (convertWindSpeedFromGridValue_ne_zero v ts.uom hnz)]

/-- Witness for claim C4 (amended) at concrete gridpoint payloads:
with both series missing the defaults are used; with non-zero most
recent values those values are used (converted for wind). -/
theorem claim_C4_gridpoint_fallback_amended_witness :
    WeatherService.extractRelativeHumidity WeatherService.missingGridData
      = 50 ∧
    WeatherService.extractWindSpeed WeatherService.missingGridData = 2 ∧
    WeatherService.extractRelativeHumidity WeatherService.sampleGridData
      = 65 ∧
    WeatherService.extractWindSpeed WeatherService.sampleGridData =
      WeatherService.convertWindSpeedFromGridValue 10 "wmoUnit:km_h-1" :=
  ⟨(claim_C4_gridpoint_fallback_amended WeatherService.missingGridData).1
      rfl,
   (claim_C4_gridpoint_fallback_amended
      WeatherService.missingGridData).2.2.2.2.2.1 rfl,
   (claim_C4_gridpoint_fallback_amended
      WeatherService.sampleGridData).2.2.2.2.1
      { values := [some 65], uom := "wmoUnit:percent" } 65 [] rfl rfl
      (by norm_num),
   (claim_C4_gridpoint_fallback_amended
      WeatherService.sampleGridData).2.2.2.2.2.2.2.2.2
      { values := [some 10], uom := "wmoUnit:km_h-1" } 10 [] rfl rfl
      (by norm_num)⟩

/-- Claim C1 fails on the code: given the spec example forecast response
whose first two periods carry temperatures 72 and 54 degrees Fahrenheit,
getProcessedWeatherData stores the raw values 72 and 54 as
maxTemperature and minTemperature; no Fahrenheit-to-Celsius conversion
is applied before taking max/min, although the Celsius values required
by the ProcessedWeatherData contract would be 200/9 (about 22.2) and
110/9 (about 12.2). -/
theorem claim_C1_temperatures_not_converted :
    (WeatherService.getProcessedWeatherData
        { latitude := 38.9, longitude := -77.04 }
        WeatherService.sampleForecastPeriods WeatherService.sampleGridData
        "LWX" "96" "70" 100 "2025-06-01T00:00:00Z").map
      (fun d => (d.maxTemperature, d.minTemperature)) = some (72, 54) ∧
    WeatherService.fahrenheitToCelsius 72 = 200 / 9 ∧
    WeatherService.fahrenheitToCelsius 54 = 110 / 9 ∧
    (72 : ℚ) ≠ 200 / 9 ∧ (54 : ℚ) ≠ 110 / 9 := by
  refine ⟨rfl, by norm_num [WeatherService.fahrenheitToCelsius],
    by norm_num [WeatherService.fahrenheitToCelsius], by norm_num,
    by norm_num⟩
/-- Helper: the declination at dayOfYear 355 in closed form: the sine
argument is exactly 7π/2 + π/730, so the sine is -cos(π/730). -/
theorem declination_355_eq :
    WeatherService.declination 355 =
      -(23.45 * Real.cos (Real.pi / 730) * Real.pi / 180) := by
  unfold WeatherService.declination
  have hangle : 2 * Real.pi * (284 + (355 : ℝ)) / 365 =
      7 * Real.pi / 2 + Real.pi / 730 := by
    ring
  have hshift : Real.sin (7 * Real.pi / 2 + Real.pi / 730) =
      -Real.cos (Real.pi / 730) := by
    have h1 : 7 * Real.pi / 2 + Real.pi / 730 =
        ((Real.pi / 730 + Real.pi) + Real.pi / 2) + 2 * Real.pi := by
      ring
    rw [h1, Real.sin_add_two_pi, Real.sin_add_pi_div_two,
      Real.cos_add_pi]
  rw [hangle, hshift]
  ring

/-- Helper: cos(π/730) is at least 1/2. -/
theorem cos_pi_div_730_ge_half : (1 : ℝ) / 2 ≤ Real.cos (Real.pi / 730) := by
  have hπ := Real.pi_pos
  have h0 : (0 : ℝ) ≤ Real.pi / 730 := by positivity
  have h3 : Real.pi / 3 ≤ Real.pi := by linarith
  have h730 : Real.pi / 730 ≤ Real.pi / 3 := by linarith
  calc (1 : ℝ) / 2 = Real.cos (Real.pi / 3) := Real.cos_pi_div_three.symm
    _ ≤ Real.cos (Real.pi / 730) :=
      Real.cos_le_cos_of_nonneg_of_le_pi h0 h3 h730

/-- Helper: the tangent of the day-355 declination magnitude exceeds
1/6. -/
theorem tan_decl_355_gt :
    (1 : ℝ) / 6 <
      Real.tan (23.45 * Real.cos (Real.pi / 730) * Real.pi / 180) := by
  have hπ := Real.pi_pos
  have hπ3 := Real.pi_gt_three
  have hπ4 := Real.pi_lt_four
  have hcos_lb := cos_pi_div_730_ge_half
  have hcos_ub := Real.cos_le_one (Real.pi / 730)
  have hc_lb : (1 : ℝ) / 6 <
      23.45 * Real.cos (Real.pi / 730) * Real.pi / 180 := by
    nlinarith [mul_le_mul_of_nonneg_left hπ3.le
      (by linarith : (0 : ℝ) ≤ Real.cos (Real.pi / 730) - 1 / 2)]
  have hc_ub : 23.45 * Real.cos (Real.pi / 730) * Real.pi / 180 <
      Real.pi / 2 := by
    nlinarith [mul_le_mul_of_nonneg_right hcos_ub hπ.le]
  have hc_pos : (0 : ℝ) < 23.45 * Real.cos (Real.pi / 730) * Real.pi / 180 := by
    linarith
  have := Real.lt_tan hc_pos hc_ub
  linarith

/-- Helper: the tangent of the latitude 89 in radians exceeds 63/2. -/
theorem tan_lat_89_gt :
    (63 : ℝ) / 2 < Real.tan (89 * Real.pi / 180) := by
  have hπ := Real.pi_pos
  have hπ4 := Real.pi_lt_four
  have hub : (89 : ℝ) * Real.pi / 180 < Real.pi / 2 := by linarith
  have hlb : Real.pi / 4 ≤ (89 : ℝ) * Real.pi / 180 := by linarith
  have hlb0 : -(Real.pi / 2) ≤ Real.pi / 4 := by linarith
  have hsin : Real.sin (Real.pi / 4) ≤ Real.sin (89 * Real.pi / 180) :=
    Real.sin_le_sin_of_le_of_le_pi_div_two hlb0 hub.le hlb
  rw [Real.sin_pi_div_four] at hsin
  have hsqrt2 : (7 : ℝ) / 5 < Real.sqrt 2 := by
    nlinarith [Real.sq_sqrt (by norm_num : (0 : ℝ) ≤ 2),
      Real.sqrt_nonneg 2]
  have hsinL : (7 : ℝ) / 10 < Real.sin (89 * Real.pi / 180) := by
    linarith
  have hcos_pos : (0 : ℝ) < Real.cos (89 * Real.pi / 180) :=
    Real.cos_pos_of_mem_Ioo ⟨by linarith, hub⟩
  have hcos_ub : Real.cos (89 * Real.pi / 180) ≤ Real.pi / 180 := by
    have h1 : Real.cos (89 * Real.pi / 180) =
        Real.sin (Real.pi / 2 - 89 * Real.pi / 180) :=
      (Real.sin_pi_div_two_sub _).symm
    have h2 : Real.pi / 2 - 89 * Real.pi / 180 = Real.pi / 180 := by ring
    rw [h1, h2]
    exact Real.sin_le (by positivity)
  rw [Real.tan_eq_sin_div_cos, lt_div_iff₀ hcos_pos]
  linarith

/-- Claim C3 fails on the code: estimateSolarRadiation is not a
well-defined number for every latitude and dayOfYear.  At latitude 89
and dayOfYear 355 (polar winter, the regime the claim describes as
"0 or a small value near the poles at winter solstice"), the hour-angle
argument -tan(latRad) * tan(declination) exceeds 1, Math.acos of it is
NaN, and the NaN propagates to the result (modelled as none). -/
theorem claim_C3_solar_radiation_nan_at_pole :
    WeatherService.estimateSolarRadiation 89 355 = none := by
  have hprod : 1 < -Real.tan ((89 : ℝ) * Real.pi / 180) *
      Real.tan (WeatherService.declination 355) := by
    rw [declination_355_eq, Real.tan_neg]
    have htL := tan_lat_89_gt
    have htc := tan_decl_355_gt
    have h1 : -Real.tan ((89 : ℝ) * Real.pi / 180) *
        -Real.tan (23.45 * Real.cos (Real.pi / 730) * Real.pi / 180) =
        Real.tan ((89 : ℝ) * Real.pi / 180) *
          Real.tan (23.45 * Real.cos (Real.pi / 730) * Real.pi / 180) := by
      ring
    rw [h1]
    nlinarith [mul_le_mul_of_nonneg_left htc.le
      (by linarith : (0 : ℝ) ≤ Real.tan (89 * Real.pi / 180))]
  have hnone : WeatherService.jsAcos (-Real.tan ((89 : ℝ) * Real.pi / 180) *
      Real.tan (WeatherService.declination 355)) = none := by
    unfold WeatherService.jsAcos
    rw [if_neg]
    rintro ⟨-, h2⟩
    linarith
  simp only [WeatherService.estimateSolarRadiation]
  rw [hnone]
